import Mathlib

/-!
# Smart-Session backend: shallow embedding and verification

Shallow embedding of the core of the Smart-Session backend
(`backend/confusion_logic.py`, `backend/gaze_tracker.py`,
`backend/state_resolver.py`).  Python floats are modelled as rationals;
`time.time()` is passed explicitly as a `now : ℚ` argument; mutation of the
per-session objects is modelled by explicit state passing; Python `None`
becomes `Option`.  `math.sqrt` is modelled by `sqrtQ`, a computable rational
square root that is exact whenever the radicand is a perfect square of a
rational (which holds at every concrete configuration evaluated below; no
statement here depends on the value of a square root at a non-square).

A landmark mapping (a Python dict from MediaPipe integer indices to
`{x:…, y:…}` records) is modelled as an association list; the empty list
models both an empty dict and Python `None` (both are falsy).
-/

namespace SmartSession

/-- A 2-D landmark point `(x, y)`. -/
abbrev Pt := ℚ × ℚ

/-- A landmark mapping: association list from MediaPipe index to point. -/
abbrev Lm := List (ℕ × Pt)

/-- Fuel-driven integer square-root scan: the largest `k` reachable from
the accumulator with `(k+1)^2 ≤ n` within the fuel. -/
def natSqrtAux (n : ℕ) : ℕ → ℕ → ℕ
  | 0, k => k
  | fuel + 1, k => if (k + 1) * (k + 1) ≤ n then natSqrtAux n fuel (k + 1) else k

/-- Integer square root (floor), by bounded upward scan. -/
def natSqrt (n : ℕ) : ℕ := natSqrtAux n n 0

/-- Model of `math.sqrt` on rationals: `sqrt (n/d) = sqrt (n*d) / d`, using
the integer square root.  Exact on perfect-square rationals. -/
def sqrtQ (q : ℚ) : ℚ :=
  if q ≤ 0 then 0
  else (natSqrt (q.num.toNat * q.den) : ℚ) / (q.den : ℚ)

/-- `ConfusionDetector._get_point` / `GazeTracker`'s local `get_point`:
look up a landmark index, `none` when absent. -/
def getPoint (lm : Lm) (i : ℕ) : Option Pt :=
  lm.lookup i

/-- `ConfusionDetector._distance`: Euclidean distance. -/
def pdist (p q : Pt) : ℚ :=
  sqrtQ ((p.1 - q.1) ^ 2 + (p.2 - q.2) ^ 2)

/-- Sum of consecutive pairwise distances, in chronological order
(the loop in `detect_head_rigidity`). -/
def pathLength : List Pt → ℚ
  | a :: b :: rest => pdist a b + pathLength (b :: rest)
  | _ => 0

/-- `ConfusionDetector._calculate_curvature`: mean deviation of interior
points from the line through the first and last point. -/
def calculateCurvature (points : List Pt) : ℚ :=
  if points.length < 3 then 0
  else
    let s := points.headI
    let e := points.getLastI
    let interior := (points.drop 1).dropLast
    let distances :=
      if s.1 = e.1 then
        interior.map (fun p => |p.1 - s.1|)
      else
        let a := e.2 - s.2
        let b := s.1 - e.1
        let c := e.1 * s.2 - s.1 * e.2
        let denom := sqrtQ (a * a + b * b)
        if denom > 0 then
          interior.map (fun p => |a * p.1 + b * p.2 + c| / denom)
        else [0]
    if distances.length > 0 then distances.sum / (distances.length : ℚ) else 0

/-! ## ConfusionDetector -/

/-- MediaPipe landmark indices used by `ConfusionDetector`. -/
def LEFT_INNER_BROW : ℕ := 107
def RIGHT_INNER_BROW : ℕ := 336
def MOUTH_LEFT : ℕ := 61
def MOUTH_RIGHT : ℕ := 291
def MOUTH_TOP : ℕ := 13
def MOUTH_BOTTOM : ℕ := 14
def NOSE_TIP : ℕ := 4

/-- Thresholds of `ConfusionDetector.__init__`. -/
def brow_furrow_threshold : ℚ := 4/5
def mouth_flatness_threshold : ℚ := 2/25
def head_movement_min : ℚ := 2
def baseline_init_duration : ℚ := 3
def time_window_seconds : ℚ := 3

/-- The mutable state of a `ConfusionDetector` instance. -/
structure DetState where
  baseline_brow_distance : Option ℚ
  baseline_locked : Bool
  baseline_init_samples : List ℚ
  baseline_init_start_time : Option ℚ
  head_positions : List (ℚ × Pt)
deriving Repr, DecidableEq

/-- `ConfusionDetector.__init__`: the fresh session state. -/
def DetState.init : DetState :=
  { baseline_brow_distance := none
    baseline_locked := false
    baseline_init_samples := []
    baseline_init_start_time := none
    head_positions := [] }

/-- `ConfusionDetector.initialize_baseline`.  Returns the new state
and the `justLocked` boolean. -/
def initializeBaseline (st : DetState) (lm : Lm) (current_time : ℚ)
    (face_count : ℕ) (gaze_direction : String) (proctor_alert_active : Bool) :
    DetState × Bool :=
  if face_count ≠ 1 || gaze_direction ≠ "CENTER" || proctor_alert_active then
    ({ st with baseline_init_samples := [], baseline_init_start_time := none },
     false)
  else if st.baseline_locked then (st, false)
  else
    match getPoint lm LEFT_INNER_BROW, getPoint lm RIGHT_INNER_BROW with
    | some li, some ri =>
      let current_distance := pdist li ri
      let start := st.baseline_init_start_time.getD current_time
      let elapsed := current_time - start
      if elapsed < baseline_init_duration then
        ({ st with baseline_init_start_time := some start
                   baseline_init_samples :=
                     st.baseline_init_samples ++ [current_distance] },
         false)
      else if 0 < st.baseline_init_samples.length then
        ({ st with baseline_brow_distance :=
                     some (st.baseline_init_samples.sum /
                           (st.baseline_init_samples.length : ℚ))
                   baseline_locked := true
                   baseline_init_samples := []
                   baseline_init_start_time := none },
         true)
      else ({ st with baseline_init_start_time := some start }, false)
    | _, _ => (st, false)

/-- `ConfusionDetector.detect_brow_furrowing` (pure in the state). -/
def detectBrowFurrowing (st : DetState) (lm : Lm) : Bool :=
  if !st.baseline_locked then false
  else
    match st.baseline_brow_distance with
    | none => false
    | some bd =>
      match getPoint lm LEFT_INNER_BROW, getPoint lm RIGHT_INNER_BROW with
      | some li, some ri =>
        if bd > 0 then decide (pdist li ri / bd < brow_furrow_threshold)
        else false
      | _, _ => false

/-- `ConfusionDetector.detect_mouth_flatness` (pure, baseline-independent). -/
def detectMouthFlatness (lm : Lm) : Bool :=
  match getPoint lm MOUTH_LEFT, getPoint lm MOUTH_RIGHT,
        getPoint lm MOUTH_TOP, getPoint lm MOUTH_BOTTOM with
  | some ml, some mr, some mt, some mb =>
    decide (calculateCurvature [ml, mt, mr, mb] < mouth_flatness_threshold)
  | _, _, _, _ => false

/-- The window-maintenance step of `detect_head_rigidity`: append the
current sample at the tail, then keep exactly the entries with
`timestamp > now - time_window_seconds` (Python list comprehension with
a strict `>`). -/
def pruneHead (l : List (ℚ × Pt)) (now : ℚ) : List (ℚ × Pt) :=
  l.filter (fun e => decide (now - time_window_seconds < e.1))

/-- `ConfusionDetector.detect_head_rigidity`: maintains the head-position
window (the only operation that does) and reports rigidity. -/
def detectHeadRigidity (st : DetState) (lm : Lm) (current_time : ℚ) :
    DetState × Bool :=
  match getPoint lm NOSE_TIP with
  | none => (st, false)
  | some nose =>
    let pruned := pruneHead (st.head_positions ++ [(current_time, nose)])
      current_time
    let st' := { st with head_positions := pruned }
    if pruned.length < 3 then (st', false)
    else
      (st', decide (pathLength (pruned.map (·.2)) < head_movement_min))

/-- `ConfusionDetector.detect_confusion`: opportunistic calibration while
unlocked, unconditionally false until locked, else `indicators >= 2`. -/
def detectConfusion (st : DetState) (lm : Lm) (current_time : ℚ)
    (face_count : ℕ) (gaze_direction : String) (proctor_alert_active : Bool) :
    DetState × Bool :=
  if lm.isEmpty then (st, false)
  else
    let st1 := if st.baseline_locked then st
      else (initializeBaseline st lm current_time face_count gaze_direction
              proctor_alert_active).1
    if !st1.baseline_locked then (st1, false)
    else
      let b := detectBrowFurrowing st1 lm
      let m := detectMouthFlatness lm
      let hr := detectHeadRigidity st1 lm current_time
      let indicators : ℕ :=
        (cond b 1 0) + (cond m 1 0) + (cond hr.2 1 0)
      (hr.1, decide (2 ≤ indicators))

/-- `ConfusionDetector.get_confusion_reasons`. -/
def getConfusionReasons (st : DetState) (lm : Lm) (current_time : ℚ) :
    DetState × List String :=
  if lm.isEmpty || !st.baseline_locked then (st, [])
  else
    let r1 := if detectBrowFurrowing st lm then ["Brow furrowing detected"]
      else []
    let r2 := if detectMouthFlatness lm then ["No smile detected"] else []
    let hr := detectHeadRigidity st lm current_time
    let r3 := if hr.2 then ["Prolonged stillness"] else []
    let reasons := r1 ++ r2 ++ r3
    (hr.1, if 2 ≤ reasons.length then reasons else [])

/-! ## GazeTracker -/

/-- MediaPipe landmark indices used by `GazeTracker`. -/
def LEFT_EYE_INNER : ℕ := 133
def LEFT_EYE_OUTER : ℕ := 33
def RIGHT_EYE_INNER : ℕ := 362
def RIGHT_EYE_OUTER : ℕ := 263
def LEFT_EYE_TOP : ℕ := 159
def LEFT_EYE_BOTTOM : ℕ := 145
def RIGHT_EYE_TOP : ℕ := 386
def RIGHT_EYE_BOTTOM : ℕ := 374

/-- `GazeTracker.alert_threshold_seconds`. -/
def alert_threshold_seconds : ℚ := 4

/-- `GazeTracker.calculate_gaze_direction`.  `none` models Python `None`
(invalid landmarks).  The Python body returns from inside the horizontal
`if` block for LEFT/RIGHT and otherwise falls through to the vertical
block; the fall-through is expressed by the intermediate `horiz` option. -/
def calculateGazeDirection (lm : Lm) : Option String :=
  if lm.isEmpty then none
  else
    match getPoint lm LEFT_EYE_INNER, getPoint lm LEFT_EYE_OUTER,
          getPoint lm RIGHT_EYE_INNER, getPoint lm RIGHT_EYE_OUTER with
    | some li, some lo, some ri, some ro =>
      let left_eye_center_x := (li.1 + lo.1) / 2
      let right_eye_center_x := (ri.1 + ro.1) / 2
      match getPoint lm LEFT_EYE_TOP, getPoint lm LEFT_EYE_BOTTOM,
            getPoint lm RIGHT_EYE_TOP, getPoint lm RIGHT_EYE_BOTTOM with
      | some lt, some lb, some rt, some rb =>
        let left_eye_width := |lo.1 - li.1|
        let left_eye_height := |lt.2 - lb.2|
        let right_eye_width := |ro.1 - ri.1|
        let right_eye_height := |rt.2 - rb.2|
        let left_inner_offset := li.1 - left_eye_center_x
        let right_inner_offset := ri.1 - right_eye_center_x
        let horiz : Option String :=
          if left_eye_width > 0 ∧ right_eye_width > 0 then
            let left_ratio := left_inner_offset / left_eye_width
            let right_ratio := right_inner_offset / right_eye_width
            let avg_horizontal_ratio := (left_ratio + right_ratio) / 2
            if avg_horizontal_ratio < -(1/5) then some "LEFT"
            else if avg_horizontal_ratio > 1/5 then some "RIGHT"
            else none
          else none
        match horiz with
        | some d => some d
        | none =>
          if left_eye_height > 0 ∧ right_eye_height > 0 then
            let face_width := |ro.1 - lo.1|
            if face_width > 0 then
              let expected_eye_height := face_width / 10
              let height_ratio_left :=
                if expected_eye_height > 0 then left_eye_height / expected_eye_height
                else 1
              let height_ratio_right :=
                if expected_eye_height > 0 then right_eye_height / expected_eye_height
                else 1
              let avg_height_ratio := (height_ratio_left + height_ratio_right) / 2
              if avg_height_ratio < 7/10 then some "UP"
              else if avg_height_ratio > 13/10 then some "DOWN"
              else some "CENTER"
            else some "CENTER"
          else some "CENTER"
      | _, _, _, _ => some "CENTER"
    | _, _, _, _ => none

/-- `GazeTracker.check_continuous_deviation`.  The tracker's only mutable
field here is `deviation_start_time : Option ℚ`; the pair returned is
(new `deviation_start_time`, alert boolean). -/
def checkContinuousDeviation (deviation_start_time : Option ℚ)
    (gaze_direction : String) (current_time : ℚ) : Option ℚ × Bool :=
  if gaze_direction ≠ "CENTER" then
    let start := deviation_start_time.getD current_time
    let elapsed := current_time - start
    (some start, decide (elapsed ≥ alert_threshold_seconds))
  else (none, false)

/-! ## StateResolver -/

/-- `StateResolver.violation_window_seconds` and
`StateResolver.gaze_clear_duration`. -/
def violation_window_seconds : ℚ := 2
def gaze_clear_duration : ℚ := 2

/-- The mutable state of a `StateResolver` instance. -/
structure RState where
  current_state : String
  face_count_violations : List ℚ
  gaze_alert_active : Bool
  gaze_clear_start_time : Option ℚ
deriving Repr, DecidableEq

/-- `StateResolver.__init__`. -/
def RState.init : RState :=
  { current_state := "FOCUSED"
    face_count_violations := []
    gaze_alert_active := false
    gaze_clear_start_time := none }

/-- `StateResolver.resolve`.  The deque append is a tail append; the
`popleft`-while-head-stale loop is `dropWhile (· < cutoff)`.  Returns
the new state and the state string. -/
def resolve (st : RState) (current_time : ℚ) (face_count : ℕ)
    (gaze_alert : Bool) (is_confused : Bool) : RState × String :=
  let cutoff_time := current_time - violation_window_seconds
  let appended :=
    if face_count ≠ 1 then st.face_count_violations ++ [current_time]
    else st.face_count_violations
  let violations := appended.dropWhile (fun e => decide (e < cutoff_time))
  let face_count_violation := !violations.isEmpty
  let gz : Bool × Option ℚ :=
    if gaze_alert then (true, none)
    else if st.gaze_alert_active then
      match st.gaze_clear_start_time with
      | none => (true, some current_time)
      | some cs =>
        if current_time - cs ≥ gaze_clear_duration then (false, none)
        else (true, some cs)
    else (false, none)
  let state :=
    if face_count_violation || gz.1 then "PROCTOR_ALERT"
    else if is_confused then "CONFUSED"
    else "FOCUSED"
  ({ current_state := state
     face_count_violations := violations
     gaze_alert_active := gz.1
     gaze_clear_start_time := gz.2 },
   state)

/-! ## Runs (sequences of per-frame calls) -/

/-- One input frame to `StateResolver.resolve`. -/
structure RIn where
  t : ℚ
  fc : ℕ
  gaze : Bool
  conf : Bool
deriving Repr, DecidableEq

/-- Folding `resolve` over a sequence of frames. -/
def resolveRun (st : RState) (l : List RIn) : RState :=
  l.foldl (fun s i => (resolve s i.t i.fc i.gaze i.conf).1) st

/-- One input frame to `initialize_baseline`. -/
structure CIn where
  lm : Lm
  t : ℚ
  fc : ℕ
  gaze : String
  pa : Bool
deriving Repr, DecidableEq

/-- Frame `i` satisfies the calibration preconditions of
`initialize_baseline` (single face, CENTER gaze, no proctor alert). -/
def qualifies (i : CIn) : Bool :=
  decide (i.fc = 1) && decide (i.gaze = "CENTER") && !i.pa

/-- The sequence of `justLocked` results of `initialize_baseline` over a
sequence of frames. -/
def calRunOuts (st : DetState) : List CIn → List Bool
  | [] => []
  | i :: l =>
    let r := initializeBaseline st i.lm i.t i.fc i.gaze i.pa
    r.2 :: calRunOuts r.1 l

/-- Folding `detect_confusion` over a sequence of frames. -/
def dcRun (st : DetState) (l : List CIn) : DetState :=
  l.foldl (fun s i => (detectConfusion s i.lm i.t i.fc i.gaze i.pa).1) st

/-! ## Concrete inputs used by witnesses and counterexamples, and the
amended-claim gaze decision tree -/

/-- A landmark frame with brow, mouth and nose-tip points: inter-brow
distance 3, perfectly flat mouth contour, nose tip at `(5, 0)`. -/
def lmW : Lm :=
  [(107, ((0:ℚ), 0)), (336, (3, 0)),
   (61, (0, 0)), (13, (1, 0)), (291, (2, 0)), (14, (4, 0)),
   (4, (5, 0))]

/-- A detector state with a locked baseline of 4 and two buffered head
positions `(0,0)` and `(3,0)`. -/
def stW : DetState :=
  { baseline_brow_distance := some 4
    baseline_locked := true
    baseline_init_samples := []
    baseline_init_start_time := none
    head_positions := [(-1, ((0:ℚ), 0)), (-1/2, (3, 0))] }

/-- An unlocked state 3 s into a qualifying streak with one sample. -/
def stL : DetState :=
  { baseline_brow_distance := none
    baseline_locked := false
    baseline_init_samples := [3]
    baseline_init_start_time := some 0
    head_positions := [] }

/-- The state `stL` locks into at time 3. -/
def stL' : DetState :=
  { baseline_brow_distance := some 3
    baseline_locked := true
    baseline_init_samples := []
    baseline_init_start_time := none
    head_positions := [] }

/-- An active gaze-alert hysteresis with no pending clear-timer. -/
def stG : RState :=
  { current_state := "PROCTOR_ALERT"
    face_count_violations := []
    gaze_alert_active := true
    gaze_clear_start_time := none }

/-- At least two of three booleans are true (the claim's "2 of 3"
formulation of the fusion threshold). -/
def atLeastTwo (a b c : Bool) : Bool :=
  (a && b) || (a && c) || (b && c)

/-- A qualifying calibration frame over the witness landmarks at time `t`. -/
def cIn (t : ℚ) : CIn := ⟨lmW, t, 1, "CENTER", false⟩

/-- A two-face (precondition-violating) frame at time 0. -/
def cViol : CIn := ⟨lmW, 0, 2, "CENTER", false⟩

/-- Landmarks with a degenerate (zero-width) left eye, a positive-width
right eye, and eye apertures small against the face width. -/
def lm8 : Lm :=
  [(133, ((0:ℚ), 0)), (33, (0, 0)), (362, (90, 0)), (263, (100, 0)),
   (159, (0, 1)), (145, (0, 2)), (386, (95, 1)), (374, (95, 2))]

/-- The claim's decision tree for the gaze classifier, amended minimally:
LEFT/RIGHT require both eye widths positive and the average
inner-corner-offset ÷ eye-width ratio outside the ±0.2 neutral band;
whenever the horizontal test does not return (either width degenerate, or
the ratio in the band), the vertical test runs, and it requires both eye
apertures and the face width positive, comparing the average eye-height
ratio against an expected height of one-tenth of the inter-outer-eye face
width: below 0.7 is UP, above 1.3 is DOWN; every remaining case is
CENTER. -/
def gazeSpecAmended (li lo ri ro lt lb rt rb : Pt) : String :=
  let left_width := |lo.1 - li.1|
  let right_width := |ro.1 - ri.1|
  let avg_ratio := ((li.1 - (li.1 + lo.1) / 2) / left_width +
                    (ri.1 - (ri.1 + ro.1) / 2) / right_width) / 2
  if left_width > 0 ∧ right_width > 0 ∧ avg_ratio < -(1/5) then "LEFT"
  else if left_width > 0 ∧ right_width > 0 ∧ avg_ratio > 1/5 then "RIGHT"
  else
    let left_height := |lt.2 - lb.2|
    let right_height := |rt.2 - rb.2|
    let face_width := |ro.1 - lo.1|
    let avg_h := (left_height / (face_width / 10) +
                  right_height / (face_width / 10)) / 2
    if left_height > 0 ∧ right_height > 0 ∧ face_width > 0 ∧ avg_h < 7/10
    then "UP"
    else if left_height > 0 ∧ right_height > 0 ∧ face_width > 0 ∧
        avg_h > 13/10 then "DOWN"
    else "CENTER"

/-! ## Helper lemmas -/

/-- An element not satisfying the predicate survives `dropWhile`. -/
theorem mem_dropWhile_of_not {α : Type} {p : α → Bool} {a : α} :
    ∀ {l : List α}, a ∈ l → p a = false → a ∈ l.dropWhile p := by
  intro l
  induction l with
  | nil => intro h; cases h
  | cons b l ih =>
    intro hmem hpa
    rw [List.dropWhile_cons]
    by_cases hb : p b = true
    · simp only [hb, if_true]
      rcases List.mem_cons.mp hmem with h | h
      · subst h; rw [hpa] at hb; cases hb
      · exact ih h hpa
    · simp only [Bool.not_eq_true] at hb
      simp [hb, hmem]

/-- `dropWhile` empties a list all of whose elements satisfy the predicate. -/
theorem dropWhile_eq_nil_of_all {α : Type} {p : α → Bool} :
    ∀ {l : List α}, (∀ a ∈ l, p a = true) → l.dropWhile p = [] := by
  intro l
  induction l with
  | nil => intro _; rfl
  | cons b l ih =>
    intro h
    rw [List.dropWhile_cons]
    simp only [h b (List.mem_cons_self b l), if_true]
    exact ih fun a ha => h a (List.mem_cons_of_mem b ha)

/-- On a `≤`-sorted list, `dropWhile (· < c)` retains exactly the
elements `≥ c`. -/
theorem mem_dropWhile_sorted_iff {c : ℚ} :
    ∀ {l : List ℚ}, l.Sorted (· ≤ ·) → ∀ x : ℚ,
      (x ∈ l.dropWhile (fun e => decide (e < c)) ↔ x ∈ l ∧ c ≤ x) := by
  intro l
  induction l with
  | nil => intro _ x; simp
  | cons b l ih =>
    intro hs x
    have hs' : l.Sorted (· ≤ ·) := (List.sorted_cons.mp hs).2
    have hble : ∀ y ∈ l, b ≤ y := (List.sorted_cons.mp hs).1
    rw [List.dropWhile_cons]
    simp only [decide_eq_true_eq]
    by_cases hb : b < c
    · rw [if_pos hb, ih hs' x]
      constructor
      · rintro ⟨hx, hcx⟩; exact ⟨List.mem_cons_of_mem b hx, hcx⟩
      · rintro ⟨hx, hcx⟩
        rcases List.mem_cons.mp hx with h | h
        · subst h; exact absurd hcx (not_le.mpr hb)
        · exact ⟨h, hcx⟩
    · rw [if_neg hb]
      constructor
      · intro hx
        refine ⟨hx, ?_⟩
        rcases List.mem_cons.mp hx with h | h
        · subst h; exact not_lt.mp hb
        · exact le_trans (not_lt.mp hb) (hble x h)
      · exact fun h => h.1

/-- The gaze-hysteresis fields of `resolve` depend only on the gaze input
and the previous gaze fields (case: incoming alert true). -/
theorem resolve_gaze_true (st : RState) (t : ℚ) (fc : ℕ) (c : Bool) :
    (resolve st t fc true c).1.gaze_alert_active = true ∧
    (resolve st t fc true c).1.gaze_clear_start_time = none := by
  simp [resolve]

/-- Gaze fields of `resolve` on a false alert while active with no pending
clear-timer: the clear-timer starts, the flag stays active. -/
theorem resolve_gaze_false_active_none (st : RState) (t : ℚ) (fc : ℕ)
    (c : Bool) (ha : st.gaze_alert_active = true)
    (hc : st.gaze_clear_start_time = none) :
    (resolve st t fc false c).1.gaze_alert_active = true ∧
    (resolve st t fc false c).1.gaze_clear_start_time = some t := by
  simp [resolve, ha, hc]

/-- Gaze fields of `resolve` on a false alert while active with a running
clear-timer. -/
theorem resolve_gaze_false_active_some (st : RState) (t cs : ℚ) (fc : ℕ)
    (c : Bool) (ha : st.gaze_alert_active = true)
    (hc : st.gaze_clear_start_time = some cs) :
    (resolve st t fc false c).1.gaze_alert_active =
      (if gaze_clear_duration ≤ t - cs then false else true) ∧
    (resolve st t fc false c).1.gaze_clear_start_time =
      (if gaze_clear_duration ≤ t - cs then none else some cs) := by
  by_cases h : gaze_clear_duration ≤ t - cs
  · simp [resolve, ha, hc, h, ge_iff_le]
  · simp [resolve, ha, hc, h, ge_iff_le]

/-- Gaze fields of `resolve` on a false alert while inactive: no-op. -/
theorem resolve_gaze_false_inactive (st : RState) (t : ℚ) (fc : ℕ)
    (c : Bool) (ha : st.gaze_alert_active = false) :
    (resolve st t fc false c).1.gaze_alert_active = false ∧
    (resolve st t fc false c).1.gaze_clear_start_time = none := by
  simp [resolve, ha]

/-- The face-count-violation window produced by one `resolve` call:
append `now` iff `face_count ≠ 1`, then drop the stale head. -/
theorem resolve_violations (st : RState) (t : ℚ) (fc : ℕ) (g c : Bool) :
    (resolve st t fc g c).1.face_count_violations =
      (if fc ≠ 1 then st.face_count_violations ++ [t]
       else st.face_count_violations).dropWhile
        (fun e => decide (e < t - violation_window_seconds)) := by
  simp [resolve]

/-! ## C1 -/

/-- **C1**: a `resolve` call that observes `face_count ≠ 1` at time `t`
records `t` in the violation window; every `resolve` call at a time `t'`
with `t' - t < 2.0` returns `PROCTOR_ALERT` regardless of the confusion
input (and keeps `t` recorded, so the stickiness persists along a chain of
calls); and a call at `t'` with `t' - t > 2.0`, no violation recorded after
`t`, a single face, and the gaze-alert hysteresis inactive returns
`CONFUSED` when the confusion input is true and `FOCUSED` otherwise. -/
theorem resolver_sticky_violation_window :
    (∀ (st : RState) (t : ℚ) (fc : ℕ) (g c : Bool), fc ≠ 1 →
       t ∈ (resolve st t fc g c).1.face_count_violations)
    ∧
    (∀ (st : RState) (t t' : ℚ) (fc : ℕ) (g c : Bool),
       t ∈ st.face_count_violations → t' - t < violation_window_seconds →
       (resolve st t' fc g c).2 = "PROCTOR_ALERT" ∧
       t ∈ (resolve st t' fc g c).1.face_count_violations)
    ∧
    (∀ (st : RState) (t t' : ℚ) (c : Bool),
       (∀ e ∈ st.face_count_violations, e ≤ t) →
       violation_window_seconds < t' - t →
       st.gaze_alert_active = false →
       (resolve st t' 1 false c).2 = if c then "CONFUSED" else "FOCUSED") := by
  refine ⟨?_, ?_, ?_⟩
  · intro st t fc g c hfc
    rw [resolve_violations]
    refine mem_dropWhile_of_not ?_ ?_
    · rw [if_pos hfc]
      exact List.mem_append_right _ (List.mem_singleton.mpr rfl)
    · rw [decide_eq_false_iff_not]
      rw [violation_window_seconds]
      intro h
      linarith
  · intro st t t' fc g c hmem hlt
    have hnotp : decide (t < t' - violation_window_seconds) = false := by
      rw [decide_eq_false_iff_not]
      intro h
      linarith
    have hmem' : t ∈ (resolve st t' fc g c).1.face_count_violations := by
      rw [resolve_violations]
      refine mem_dropWhile_of_not ?_ hnotp
      by_cases h : fc ≠ 1
      · rw [if_pos h]; exact List.mem_append_left _ hmem
      · rw [if_neg h]; exact hmem
    refine ⟨?_, hmem'⟩
    have hne : (resolve st t' fc g c).1.face_count_violations ≠ [] :=
      List.ne_nil_of_mem hmem'
    rw [resolve_violations] at hne
    rcases List.exists_cons_of_ne_nil hne with ⟨a, l, hal⟩
    simp only [resolve]
    rw [hal]
    simp
  · intro st t t' c hall hgt hga
    have hdrop :
        (st.face_count_violations).dropWhile
          (fun e => decide (e < t' - violation_window_seconds)) = [] := by
      refine dropWhile_eq_nil_of_all ?_
      intro a ha
      rw [decide_eq_true_eq]
      have := hall a ha
      linarith
    simp only [resolve, hga]
    simp [hdrop]

/-- Witness for C1: a two-face frame at `t = 0` keeps the resolver in
`PROCTOR_ALERT` at `t' = 1.5` whatever the other inputs, and at `t' = 2.5`
a confused single-face frame resolves to `CONFUSED`. -/
theorem resolver_sticky_violation_window_witness :
    ((0:ℚ) ∈ (resolve RState.init 0 2 false false).1.face_count_violations) ∧
    (resolve (resolve RState.init 0 2 false false).1 (3/2) 1 true true).2 =
      "PROCTOR_ALERT" ∧
    (resolve (resolve RState.init 0 2 false false).1 (5/2) 1 false true).2 =
      "CONFUSED" := by
  have h0 : (0:ℚ) ∈ (resolve RState.init 0 2 false false).1.face_count_violations :=
    resolver_sticky_violation_window.1 RState.init 0 2 false false (by norm_num)
  refine ⟨h0, ?_, ?_⟩
  · exact (resolver_sticky_violation_window.2.1
      (resolve RState.init 0 2 false false).1 0 (3/2) 1 true true h0
      (by rw [violation_window_seconds]; norm_num)).1
  · have hfc : (resolve RState.init 0 2 false false).1.face_count_violations
        = [0] := by
      rw [resolve_violations]
      norm_num [RState.init, violation_window_seconds, List.dropWhile]
    have hga : (resolve RState.init 0 2 false false).1.gaze_alert_active
        = false := by
      simp [resolve, RState.init]
    have := resolver_sticky_violation_window.2.2
      (resolve RState.init 0 2 false false).1 0 (5/2) true
      (by rw [hfc]; intro e he; simp at he; simp [he])
      (by rw [violation_window_seconds]; norm_num) hga
    simpa using this

/-! ## Concrete inputs used by witnesses and counterexamples -/

theorem lmW_107 : getPoint lmW LEFT_INNER_BROW = some (0, 0) := rfl
theorem lmW_336 : getPoint lmW RIGHT_INNER_BROW = some (3, 0) := rfl
theorem lmW_61 : getPoint lmW MOUTH_LEFT = some (0, 0) := rfl
theorem lmW_291 : getPoint lmW MOUTH_RIGHT = some (2, 0) := rfl
theorem lmW_13 : getPoint lmW MOUTH_TOP = some (1, 0) := rfl
theorem lmW_14 : getPoint lmW MOUTH_BOTTOM = some (4, 0) := rfl
theorem lmW_4 : getPoint lmW NOSE_TIP = some (5, 0) := rfl

/-- Evaluating a two-face frame at time 0 from the fresh resolver state. -/
theorem resolve_init_two_faces :
    resolve RState.init 0 2 false false =
      ({ current_state := "PROCTOR_ALERT", face_count_violations := [0],
         gaze_alert_active := false, gaze_clear_start_time := none },
       "PROCTOR_ALERT") := by
  norm_num [resolve, RState.init, violation_window_seconds, List.dropWhile]

/-! ## C2 -/

/-- **C2 (counterexample)**: the claim says no entry with
`timestamp ≤ now − W` is ever retained, and that both windows follow the
identical discipline.  But the face-count violation window prunes with a
strict `<` against the cutoff, so the entry recorded at time 0 is still
retained (and still forces `PROCTOR_ALERT`) at `now = 2` even though its
timestamp `0 ≤ now − W = 0`. -/
theorem window_pruning_boundary_cex :
    (resolve (resolve RState.init 0 2 false false).1 2 1 false false).1.face_count_violations
      = [0] ∧
    ((0:ℚ) ≤ 2 - violation_window_seconds) ∧
    (resolve (resolve RState.init 0 2 false false).1 2 1 false false).2
      = "PROCTOR_ALERT" := by
  rw [resolve_init_two_faces]
  refine ⟨?_, ?_, ?_⟩
  · rw [resolve_violations]
    norm_num [violation_window_seconds, List.dropWhile]
  · norm_num [violation_window_seconds]
  · norm_num [resolve, violation_window_seconds, List.dropWhile]

/-- **C2 (amended)**: the head-position window retains exactly the entries
with `timestamp > now − 3.0` (strict).  The face-count violation window,
whose entries are appended in nondecreasing order, retains exactly the
entries with `timestamp ≥ now − 2.0` — the two disciplines agree except at
the boundary `timestamp = now − W`, which the head window evicts and the
face-count window retains. -/
theorem window_pruning_amended :
    (∀ (st : DetState) (lm : Lm) (t : ℚ) (nose : Pt) (e : ℚ × Pt),
       getPoint lm NOSE_TIP = some nose →
       (e ∈ (detectHeadRigidity st lm t).1.head_positions ↔
         e ∈ st.head_positions ++ [(t, nose)] ∧ t - time_window_seconds < e.1))
    ∧
    (∀ (st : RState) (t' : ℚ) (fc : ℕ) (g c : Bool) (x : ℚ),
       st.face_count_violations.Sorted (· ≤ ·) →
       (∀ e ∈ st.face_count_violations, e ≤ t') →
       (x ∈ (resolve st t' fc g c).1.face_count_violations ↔
         x ∈ (if fc ≠ 1 then st.face_count_violations ++ [t']
              else st.face_count_violations) ∧
           t' - violation_window_seconds ≤ x)) := by
  constructor
  · intro st lm t nose e h
    have hhp : (detectHeadRigidity st lm t).1.head_positions =
        pruneHead (st.head_positions ++ [(t, nose)]) t := by
      simp only [detectHeadRigidity, h]
      split <;> rfl
    rw [hhp, pruneHead]
    simp [List.mem_filter]
    tauto
  · intro st t' fc g c x hsort hle
    have happ : (if fc ≠ 1 then st.face_count_violations ++ [t']
        else st.face_count_violations).Sorted (· ≤ ·) := by
      by_cases h : fc ≠ 1
      · rw [if_pos h]
        refine List.pairwise_append.mpr ⟨hsort, List.sorted_singleton t', ?_⟩
        intro a ha b hb
        rw [List.mem_singleton] at hb
        subst hb
        exact hle a ha
      · rw [if_neg h]; exact hsort
    rw [resolve_violations, mem_dropWhile_sorted_iff happ x]

/-- Witness for the amended C2: concrete pruning of both windows. -/
theorem window_pruning_amended_witness :
    (((3:ℚ), ((5:ℚ), (0:ℚ))) ∈ (detectHeadRigidity DetState.init lmW 3).1.head_positions ↔
      ((3:ℚ), ((5:ℚ), (0:ℚ))) ∈ DetState.init.head_positions ++ [(3, (5, 0))] ∧
        (3:ℚ) - time_window_seconds < 3)
    ∧
    ((0:ℚ) ∈ (resolve (resolve RState.init 0 2 false false).1 1 1 false false).1.face_count_violations ↔
      (0:ℚ) ∈ (if (1:ℕ) ≠ 1 then
          (resolve RState.init 0 2 false false).1.face_count_violations ++ [1]
        else (resolve RState.init 0 2 false false).1.face_count_violations) ∧
        (1:ℚ) - violation_window_seconds ≤ 0) := by
  constructor
  · exact window_pruning_amended.1 DetState.init lmW 3 (5, 0) (3, (5, 0)) lmW_4
  · refine window_pruning_amended.2 (resolve RState.init 0 2 false false).1
      1 1 false false 0 ?_ ?_
    · rw [resolve_init_two_faces]
      exact List.sorted_singleton 0
    · rw [resolve_init_two_faces]
      intro e he
      rw [List.mem_singleton] at he
      subst he
      norm_num

/-! ## C3 -/

/-- `detect_head_rigidity` only touches the head-position window: every
baseline/calibration field is preserved. -/
theorem detectHeadRigidity_base (st : DetState) (lm : Lm) (t : ℚ) :
    (detectHeadRigidity st lm t).1.baseline_brow_distance = st.baseline_brow_distance ∧
    (detectHeadRigidity st lm t).1.baseline_locked = st.baseline_locked ∧
    (detectHeadRigidity st lm t).1.baseline_init_samples = st.baseline_init_samples ∧
    (detectHeadRigidity st lm t).1.baseline_init_start_time = st.baseline_init_start_time := by
  rcases h : getPoint lm NOSE_TIP with _ | nose
  · simp [detectHeadRigidity, h]
  · simp only [detectHeadRigidity, h]
    split <;> simp

/-- A `{st with …}` update clearing the accumulator is the identity when
the accumulator is already clear. -/
theorem detstate_clear_eq_self (st : DetState)
    (hs : st.baseline_init_samples = [])
    (ht : st.baseline_init_start_time = none) :
    ({ st with baseline_init_samples := [], baseline_init_start_time := none }
      : DetState) = st := by
  cases st
  simp_all

/-- **C3**: the baseline locks at most once.  A call that reports
`justLocked = true` leaves the detector locked with a cleared accumulator;
from any locked state with a cleared accumulator (the invariant every lock
establishes), `initialize_baseline` is a complete no-op returning `false`
whatever its inputs; and `detect_confusion` never changes any calibrator
field once the baseline is locked. -/
theorem baseline_locks_at_most_once :
    (∀ (st st' : DetState) (lm : Lm) (t : ℚ) (fc : ℕ) (g : String) (pa : Bool),
       initializeBaseline st lm t fc g pa = (st', true) →
       st'.baseline_locked = true ∧ st'.baseline_init_samples = [] ∧
       st'.baseline_init_start_time = none)
    ∧
    (∀ (st : DetState) (lm : Lm) (t : ℚ) (fc : ℕ) (g : String) (pa : Bool),
       st.baseline_locked = true → st.baseline_init_samples = [] →
       st.baseline_init_start_time = none →
       initializeBaseline st lm t fc g pa = (st, false))
    ∧
    (∀ (st : DetState) (lm : Lm) (t : ℚ) (fc : ℕ) (g : String) (pa : Bool),
       st.baseline_locked = true →
       (detectConfusion st lm t fc g pa).1.baseline_brow_distance = st.baseline_brow_distance ∧
       (detectConfusion st lm t fc g pa).1.baseline_locked = true ∧
       (detectConfusion st lm t fc g pa).1.baseline_init_samples = st.baseline_init_samples ∧
       (detectConfusion st lm t fc g pa).1.baseline_init_start_time = st.baseline_init_start_time) := by
  refine ⟨?_, ?_, ?_⟩
  · intro st st' lm t fc g pa h
    simp only [initializeBaseline] at h
    split at h
    · simp at h
    · split at h
      · simp at h
      · split at h
        · split at h
          · simp at h
          · split at h
            · rw [Prod.mk.injEq] at h
              rw [← h.1]
              simp
            · simp at h
        · simp at h
  · intro st lm t fc g pa hl hs ht
    simp only [initializeBaseline]
    split
    · rw [detstate_clear_eq_self st hs ht]
    · simp [hl]
  · intro st lm t fc g pa hl
    by_cases hlm : lm.isEmpty
    · simp [detectConfusion, hlm, hl]
    · simp only [detectConfusion, hlm, hl, if_true, Bool.not_true,
        Bool.false_eq_true, if_false]
      exact ⟨(detectHeadRigidity_base st lm t).1,
        (detectHeadRigidity_base st lm t).2.1.trans hl,
        (detectHeadRigidity_base st lm t).2.2.1,
        (detectHeadRigidity_base st lm t).2.2.2⟩

/-- Evaluating the locking calibration call at time 3 from `stL`. -/
theorem initializeBaseline_stL :
    initializeBaseline stL lmW 3 1 "CENTER" false = (stL', true) := by
  norm_num [initializeBaseline, stL, stL', lmW_107, lmW_336, pdist, sqrtQ,
    natSqrt, natSqrtAux, Int.toNat_ofNat, baseline_init_duration]

/-- Witness for C3 at concrete inputs: the lock at time 3 clears the
accumulator; post-lock calibration calls (here with two faces and an
active proctor alert) are exact no-ops; `detect_confusion` keeps the
locked flag. -/
theorem baseline_locks_at_most_once_witness :
    (stL'.baseline_locked = true ∧ stL'.baseline_init_samples = [] ∧
      stL'.baseline_init_start_time = none) ∧
    initializeBaseline stW lmW 5 2 "OTHER" true = (stW, false) ∧
    (detectConfusion stW lmW 0 1 "CENTER" false).1.baseline_locked = true := by
  refine ⟨?_, ?_, ?_⟩
  · exact baseline_locks_at_most_once.1 stL stL' lmW 3 1 "CENTER" false
      initializeBaseline_stL
  · exact baseline_locks_at_most_once.2.1 stW lmW 5 2 "OTHER" true rfl rfl rfl
  · exact (baseline_locks_at_most_once.2.2 stW lmW 0 1 "CENTER" false rfl).2.1

/-! ## C4 -/

/-- **C4**: the gaze-deviation debounce.  A non-CENTER classification with
no running timer starts the timer at the current time and reports `false`;
with a running timer started at `s`, calls before `s + 4.0` report `false`
and calls at or after `s + 4.0` report `true`, the timer surviving either
way (so `true` keeps firing until CENTER); a CENTER classification clears
the timer unconditionally and reports `false`. -/
theorem gaze_debounce :
    (∀ (d : String) (t : ℚ), d ≠ "CENTER" →
       checkContinuousDeviation none d t = (some t, false))
    ∧
    (∀ (d : String) (s u : ℚ), d ≠ "CENTER" →
       u < s + alert_threshold_seconds →
       checkContinuousDeviation (some s) d u = (some s, false))
    ∧
    (∀ (d : String) (s u : ℚ), d ≠ "CENTER" →
       s + alert_threshold_seconds ≤ u →
       checkContinuousDeviation (some s) d u = (some s, true))
    ∧
    (∀ (dst : Option ℚ) (u : ℚ),
       checkContinuousDeviation dst "CENTER" u = (none, false)) := by
  refine ⟨?_, ?_, ?_, ?_⟩
  · intro d t hd
    rw [checkContinuousDeviation, if_pos hd]
    simp only [Option.getD_none, Prod.mk.injEq, true_and]
    rw [decide_eq_false_iff_not, alert_threshold_seconds]
    intro h
    simp only [ge_iff_le] at h
    linarith
  · intro d s u hd hu
    rw [checkContinuousDeviation, if_pos hd]
    simp only [Option.getD_some, Prod.mk.injEq, true_and]
    rw [decide_eq_false_iff_not]
    rw [alert_threshold_seconds] at hu
    intro h
    simp only [ge_iff_le] at h
    rw [alert_threshold_seconds] at h
    linarith
  · intro d s u hd hu
    rw [checkContinuousDeviation, if_pos hd]
    simp only [Option.getD_some, Prod.mk.injEq, true_and]
    rw [decide_eq_true_eq, ge_iff_le, alert_threshold_seconds]
    rw [alert_threshold_seconds] at hu
    linarith
  · intro dst u
    rw [checkContinuousDeviation, if_neg (by simp)]

/-- Witness for C4: a LEFT streak starting at 0 is silent at 3.9 s, fires
at 4.0 s, and CENTER clears the timer. -/
theorem gaze_debounce_witness :
    checkContinuousDeviation none "LEFT" 0 = (some 0, false) ∧
    checkContinuousDeviation (some 0) "LEFT" (39/10) = (some 0, false) ∧
    checkContinuousDeviation (some 0) "LEFT" 4 = (some 0, true) ∧
    checkContinuousDeviation (some 0) "CENTER" 5 = (none, false) := by
  refine ⟨?_, ?_, ?_, ?_⟩
  · exact gaze_debounce.1 "LEFT" 0 (by simp)
  · exact gaze_debounce.2.1 "LEFT" 0 (39/10) (by simp)
      (by rw [alert_threshold_seconds]; norm_num)
  · exact gaze_debounce.2.2.1 "LEFT" 0 4 (by simp)
      (by rw [alert_threshold_seconds]; norm_num)
  · exact gaze_debounce.2.2.2 (some 0) 5

/-! ## C5 -/

/-- A run of non-alert frames over an inactive hysteresis is a gaze
no-op. -/
theorem gaze_run_inactive :
    ∀ (l : List RIn) (st : RState), st.gaze_alert_active = false →
      st.gaze_clear_start_time = none →
      (∀ j ∈ l, j.gaze = false) →
      (resolveRun st l).gaze_alert_active = false ∧
      (resolveRun st l).gaze_clear_start_time = none := by
  intro l
  induction l with
  | nil =>
    intro st h1 h2 _
    exact ⟨h1, h2⟩
  | cons i l ih =>
    intro st h1 _ hall
    have hi : i.gaze = false := hall i (List.mem_cons_self i l)
    have hstep := resolve_gaze_false_inactive st i.t i.fc i.conf h1
    rw [resolveRun, List.foldl_cons, hi]
    exact ih ((resolve st i.t i.fc false i.conf).1) hstep.1 hstep.2
      fun j hj => hall j (List.mem_cons_of_mem i hj)

/-- Clearing run: from an active hysteresis with a clear-timer started at
`s0`, a run of non-alert frames flips the flag iff some frame arrives at
or after `s0 + 2.0`. -/
theorem gaze_run_clearing :
    ∀ (l : List RIn) (st : RState) (s0 : ℚ),
      st.gaze_alert_active = true → st.gaze_clear_start_time = some s0 →
      (∀ j ∈ l, j.gaze = false) →
      ((∃ j ∈ l, s0 + gaze_clear_duration ≤ j.t) →
         (resolveRun st l).gaze_alert_active = false) ∧
      ((∀ j ∈ l, j.t < s0 + gaze_clear_duration) →
         (resolveRun st l).gaze_alert_active = true ∧
         (resolveRun st l).gaze_clear_start_time = some s0) := by
  intro l
  induction l with
  | nil =>
    intro st s0 h1 h2 _
    refine ⟨?_, fun _ => ⟨h1, h2⟩⟩
    rintro ⟨j, hj, _⟩
    cases hj
  | cons i l ih =>
    intro st s0 h1 h2 hall
    have hi : i.gaze = false := hall i (List.mem_cons_self i l)
    have htail : ∀ j ∈ l, j.gaze = false :=
      fun j hj => hall j (List.mem_cons_of_mem i hj)
    have hstep := resolve_gaze_false_active_some st i.t s0 i.fc i.conf h1 h2
    rw [resolveRun, List.foldl_cons, hi]
    by_cases hflip : gaze_clear_duration ≤ i.t - s0
    · simp only [if_pos hflip] at hstep
      have hrun := gaze_run_inactive l ((resolve st i.t i.fc false i.conf).1)
        hstep.1 hstep.2 htail
      refine ⟨fun _ => hrun.1, ?_⟩
      intro hlt
      exfalso
      have := hlt i (List.mem_cons_self i l)
      linarith
    · simp only [if_neg hflip] at hstep
      have hrec := ih ((resolve st i.t i.fc false i.conf).1) s0
        hstep.1 hstep.2 htail
      constructor
      · rintro ⟨j, hj, hjt⟩
        rcases List.mem_cons.mp hj with h | h
        · exfalso; apply hflip; rw [h] at hjt; linarith
        · exact hrec.1 ⟨j, h, hjt⟩
      · intro hlt
        exact hrec.2 fun j hj => hlt j (List.mem_cons_of_mem i hj)

/-- **C5**: the gaze-alert hysteresis inside `resolve`.  A true alert input
immediately activates the flag and clears any pending clear-timer; from an
active flag, a continuous run of false inputs starting at time `t₀` keeps
the flag active while every call stays before `t₀ + 2.0`, and flips it
inactive as soon as some call arrives at or after `t₀ + 2.0` (staying
inactive for the rest of the run); a false input while already inactive
leaves the gaze fields unchanged. -/
theorem gaze_hysteresis :
    (∀ (st : RState) (t : ℚ) (fc : ℕ) (c : Bool),
       (resolve st t fc true c).1.gaze_alert_active = true ∧
       (resolve st t fc true c).1.gaze_clear_start_time = none)
    ∧
    (∀ (st : RState) (i0 : RIn) (l : List RIn),
       st.gaze_alert_active = true → st.gaze_clear_start_time = none →
       i0.gaze = false → (∀ j ∈ l, j.gaze = false) →
       (∀ j ∈ l, j.t < i0.t + gaze_clear_duration) →
       (resolveRun st (i0 :: l)).gaze_alert_active = true)
    ∧
    (∀ (st : RState) (i0 : RIn) (l : List RIn),
       st.gaze_alert_active = true → st.gaze_clear_start_time = none →
       i0.gaze = false → (∀ j ∈ l, j.gaze = false) →
       (∃ j ∈ l, i0.t + gaze_clear_duration ≤ j.t) →
       (resolveRun st (i0 :: l)).gaze_alert_active = false)
    ∧
    (∀ (st : RState) (t : ℚ) (fc : ℕ) (c : Bool),
       st.gaze_alert_active = false → st.gaze_clear_start_time = none →
       (resolve st t fc false c).1.gaze_alert_active = false ∧
       (resolve st t fc false c).1.gaze_clear_start_time = none) := by
  refine ⟨?_, ?_, ?_, ?_⟩
  · intro st t fc c
    exact resolve_gaze_true st t fc c
  · intro st i0 l h1 h2 h0 hall hlt
    have hstep := resolve_gaze_false_active_none st i0.t i0.fc i0.conf h1 h2
    rw [resolveRun, List.foldl_cons, h0]
    exact ((gaze_run_clearing l ((resolve st i0.t i0.fc false i0.conf).1) i0.t
      hstep.1 hstep.2 hall).2 hlt).1
  · intro st i0 l h1 h2 h0 hall hex
    have hstep := resolve_gaze_false_active_none st i0.t i0.fc i0.conf h1 h2
    rw [resolveRun, List.foldl_cons, h0]
    exact (gaze_run_clearing l ((resolve st i0.t i0.fc false i0.conf).1) i0.t
      hstep.1 hstep.2 hall).1 hex
  · intro st t fc c h1 _
    exact resolve_gaze_false_inactive st t fc c h1

/-- Witness for C5: alert activates instantly; from the active state a
clean run of 1.9 s keeps it active, a clean run reaching 2.0 s clears
it, and false-while-inactive is a no-op. -/
theorem gaze_hysteresis_witness :
    ((resolve RState.init 0 1 true false).1.gaze_alert_active = true ∧
     (resolve RState.init 0 1 true false).1.gaze_clear_start_time = none) ∧
    (resolveRun stG [⟨0, 1, false, false⟩, ⟨19/10, 1, false, false⟩]).gaze_alert_active
      = true ∧
    (resolveRun stG [⟨0, 1, false, false⟩, ⟨2, 1, false, false⟩]).gaze_alert_active
      = false ∧
    ((resolve RState.init 5 1 false true).1.gaze_alert_active = false ∧
     (resolve RState.init 5 1 false true).1.gaze_clear_start_time = none) := by
  refine ⟨?_, ?_, ?_, ?_⟩
  · exact gaze_hysteresis.1 RState.init 0 1 false
  · refine gaze_hysteresis.2.1 stG ⟨0, 1, false, false⟩ [⟨19/10, 1, false, false⟩]
      rfl rfl rfl ?_ ?_
    · intro j hj
      rw [List.mem_singleton] at hj
      subst hj
      rfl
    · intro j hj
      rw [List.mem_singleton] at hj
      subst hj
      rw [gaze_clear_duration]
      norm_num
  · refine gaze_hysteresis.2.2.1 stG ⟨0, 1, false, false⟩ [⟨2, 1, false, false⟩]
      rfl rfl rfl ?_ ?_
    · intro j hj
      rw [List.mem_singleton] at hj
      subst hj
      rfl
    · refine ⟨⟨2, 1, false, false⟩, List.mem_singleton.mpr rfl, ?_⟩
      rw [gaze_clear_duration]
      norm_num
  · exact gaze_hysteresis.2.2.2 RState.init 5 1 true rfl rfl

/-! ## C6 -/

/-- The code's indicator count reaching 2 is the same as at least two of
the three indicators being true. -/
theorem two_le_count_iff (a b c : Bool) :
    decide (2 ≤ (cond a 1 0) + (cond b 1 0) + (cond c 1 0 : ℕ)) =
      atLeastTwo a b c := by
  cases a <;> cases b <;> cases c <;> decide

/-- **C6**: with landmarks present, `detect_confusion` reports exactly
"at least 2 of the 3 indicators" once the baseline is locked (the
opportunistic calibration attempt included), and reports `false`
unconditionally while still unlocked; `get_confusion_reasons` returns the
triggered reason strings in the fixed order brow furrowing, no smile,
prolonged stillness when at least two indicators trigger, and the empty
list otherwise (also whenever landmarks are absent or the baseline is
unlocked). -/
theorem confusion_fusion :
    (∀ (st : DetState) (lm : Lm) (t : ℚ) (fc : ℕ) (g : String) (pa : Bool),
       lm.isEmpty = false →
       (if st.baseline_locked then st
        else (initializeBaseline st lm t fc g pa).1).baseline_locked = false →
       detectConfusion st lm t fc g pa =
         ((if st.baseline_locked then st
           else (initializeBaseline st lm t fc g pa).1), false))
    ∧
    (∀ (st : DetState) (lm : Lm) (t : ℚ) (fc : ℕ) (g : String) (pa : Bool),
       lm.isEmpty = false →
       (if st.baseline_locked then st
        else (initializeBaseline st lm t fc g pa).1).baseline_locked = true →
       detectConfusion st lm t fc g pa =
         ((detectHeadRigidity (if st.baseline_locked then st
             else (initializeBaseline st lm t fc g pa).1) lm t).1,
          atLeastTwo
            (detectBrowFurrowing (if st.baseline_locked then st
               else (initializeBaseline st lm t fc g pa).1) lm)
            (detectMouthFlatness lm)
            (detectHeadRigidity (if st.baseline_locked then st
               else (initializeBaseline st lm t fc g pa).1) lm t).2))
    ∧
    (∀ (st : DetState) (lm : Lm) (t : ℚ),
       lm.isEmpty = false → st.baseline_locked = true →
       (getConfusionReasons st lm t).2 =
         if atLeastTwo (detectBrowFurrowing st lm) (detectMouthFlatness lm)
              (detectHeadRigidity st lm t).2 then
           (if detectBrowFurrowing st lm then ["Brow furrowing detected"] else []) ++
           (if detectMouthFlatness lm then ["No smile detected"] else []) ++
           (if (detectHeadRigidity st lm t).2 then ["Prolonged stillness"] else [])
         else [])
    ∧
    (∀ (st : DetState) (lm : Lm) (t : ℚ),
       lm.isEmpty = true ∨ st.baseline_locked = false →
       (getConfusionReasons st lm t).2 = []) := by
  refine ⟨?_, ?_, ?_, ?_⟩
  · intro st lm t fc g pa hlm h
    simp only [detectConfusion, hlm, Bool.false_eq_true, if_false, h,
      Bool.not_false, if_true]
  · intro st lm t fc g pa hlm h
    simp only [detectConfusion, hlm, Bool.false_eq_true, if_false, h,
      Bool.not_true, two_le_count_iff]
  · intro st lm t hlm hl
    simp only [getConfusionReasons, hlm, hl, Bool.not_true, Bool.or_false,
      Bool.false_eq_true, if_false]
    cases hb : detectBrowFurrowing st lm <;>
      cases hm : detectMouthFlatness lm <;>
        cases hr : (detectHeadRigidity st lm t).2 <;>
          simp [atLeastTwo, hb, hm, hr]
  · intro st lm t h
    rcases h with h | h
    · simp [getConfusionReasons, h]
    · simp [getConfusionReasons, h]

/-- Brow indicator at the witness configuration: distance 3 against
baseline 4, ratio 0.75 < 0.80. -/
theorem detectBrow_stW : detectBrowFurrowing stW lmW = true := by
  norm_num [detectBrowFurrowing, stW, lmW_107, lmW_336, pdist,
    sqrtQ, natSqrt, natSqrtAux, Int.toNat_ofNat, brow_furrow_threshold]

/-- Mouth indicator at the witness configuration: collinear mouth contour,
curvature 0 < 0.08. -/
theorem detectMouth_lmW : detectMouthFlatness lmW = true := by
  norm_num [detectMouthFlatness, lmW_61, lmW_291, lmW_13, lmW_14,
    calculateCurvature, sqrtQ, natSqrt, natSqrtAux, Int.toNat_ofNat,
    mouth_flatness_threshold, List.headI, List.getLastI]

/-- Head rigidity at the witness configuration: path length 5 ≥ 2, not
rigid; the window advances to three entries. -/
theorem detectRigid_stW : detectHeadRigidity stW lmW 0 =
    ({ stW with head_positions :=
        [(-1, ((0:ℚ), 0)), (-1/2, (3, 0)), (0, (5, 0))] }, false) := by
  norm_num [detectHeadRigidity, stW, lmW_4, pruneHead,
    pathLength, pdist, sqrtQ, natSqrt, natSqrtAux, Int.toNat_ofNat,
    head_movement_min, time_window_seconds, List.filter]

/-- Witness for C6 (the spec's end-to-end scenario): brow furrowed and
mouth flat but head not rigid gives two indicators, hence confusion with
reasons `["Brow furrowing detected", "No smile detected"]`. -/
theorem confusion_fusion_witness :
    (detectConfusion stW lmW 0 1 "CENTER" false).2 = true ∧
    (getConfusionReasons stW lmW 0).2 =
      ["Brow furrowing detected", "No smile detected"] := by
  constructor
  · have h := confusion_fusion.2.1 stW lmW 0 1 "CENTER" false rfl rfl
    rw [h]
    show atLeastTwo (detectBrowFurrowing stW lmW) (detectMouthFlatness lmW)
      (detectHeadRigidity stW lmW 0).2 = true
    rw [detectBrow_stW, detectMouth_lmW, detectRigid_stW]
    rfl
  · have h := confusion_fusion.2.2.1 stW lmW 0 rfl rfl
    rw [h, detectBrow_stW, detectMouth_lmW, detectRigid_stW]
    rfl

/-! ## C7 -/

/-- After any `initialize_baseline` call, the accumulator start time is
either cleared, unchanged, or freshly set to the call's time. -/
theorem cal_start_cases (st : DetState) (lm : Lm) (t : ℚ) (fc : ℕ)
    (g : String) (pa : Bool) :
    (initializeBaseline st lm t fc g pa).1.baseline_init_start_time = none ∨
    (initializeBaseline st lm t fc g pa).1.baseline_init_start_time =
      st.baseline_init_start_time ∨
    (initializeBaseline st lm t fc g pa).1.baseline_init_start_time = some t := by
  simp only [initializeBaseline]
  split
  · exact Or.inl rfl
  · split
    · exact Or.inr (Or.inl rfl)
    · rcases hL : getPoint lm LEFT_INNER_BROW with _ | li
      · simp [hL]
      · rcases hR : getPoint lm RIGHT_INNER_BROW with _ | ri
        · simp [hL, hR]
        · simp only [hL, hR]
          cases hst : st.baseline_init_start_time with
          | none =>
            simp only [hst, Option.getD_none]
            split
            · exact Or.inr (Or.inr rfl)
            · split
              · exact Or.inl rfl
              · exact Or.inr (Or.inr rfl)
          | some s =>
            simp only [hst, Option.getD_some]
            split
            · exact Or.inr (Or.inl rfl)
            · split
              · exact Or.inl rfl
              · exact Or.inr (Or.inl rfl)

/-- A `justLocked = true` result requires a previously recorded start time
at least the calibration duration in the past. -/
theorem cal_locks_requires (st : DetState) (lm : Lm) (t : ℚ) (fc : ℕ)
    (g : String) (pa : Bool) :
    (initializeBaseline st lm t fc g pa).2 = true →
    ∃ s, st.baseline_init_start_time = some s ∧
      s + baseline_init_duration ≤ t := by
  intro h
  simp only [initializeBaseline] at h
  split at h
  · simp at h
  · split at h
    · simp at h
    · split at h
      · rename_i li ri
        cases hst : st.baseline_init_start_time with
        | none =>
          rw [hst] at h
          simp only [Option.getD_none] at h
          rw [if_pos (by rw [baseline_init_duration]; norm_num)] at h
          simp at h
        | some s =>
          rw [hst] at h
          simp only [Option.getD_some] at h
          by_cases hc : t - s < baseline_init_duration
          · rw [if_pos hc] at h
            simp at h
          · exact ⟨s, rfl, by linarith [not_lt.mp hc]⟩
      · simp at h

/-- One calibration step preserves the invariant "any recorded start time
is at least `v`", provided the step's own time is at least `v`. -/
theorem cal_inv_step (v : ℚ) (st : DetState) (i : CIn) (hv : v ≤ i.t)
    (hinv : ∀ s, st.baseline_init_start_time = some s → v ≤ s) :
    ∀ s, (initializeBaseline st i.lm i.t i.fc i.gaze i.pa).1.baseline_init_start_time
      = some s → v ≤ s := by
  intro s hs
  rcases cal_start_cases st i.lm i.t i.fc i.gaze i.pa with h | h | h
  · rw [h] at hs; cases hs
  · rw [h] at hs; exact hinv s hs
  · rw [h] at hs
    injection hs with h'
    rw [← h']
    exact hv

/-- Over a run whose recorded start time can only be `≥ v`, a lock can
only be reported at a frame at least the calibration duration after `v`. -/
theorem cal_run_no_lock :
    ∀ (l : List CIn) (st : DetState) (v : ℚ),
      (∀ s, st.baseline_init_start_time = some s → v ≤ s) →
      (∀ j ∈ l, v ≤ j.t) →
      ∀ (k : ℕ) (i : CIn), (calRunOuts st l).get? k = some true →
        l.get? k = some i → v + baseline_init_duration ≤ i.t := by
  intro l
  induction l with
  | nil =>
    intro st v _ _ k i h _
    simp [calRunOuts] at h
  | cons j l ih =>
    intro st v hinv hall k i hout hin
    simp only [calRunOuts] at hout
    cases k with
    | zero =>
      simp only [List.get?_cons_zero, Option.some.injEq] at hout hin
      rcases cal_locks_requires st j.lm j.t j.fc j.gaze j.pa hout
        with ⟨s, hs, hst⟩
      have hvs := hinv s hs
      rw [← hin]
      linarith
    | succ k =>
      rw [List.get?_cons_succ] at hout hin
      exact ih ((initializeBaseline st j.lm j.t j.fc j.gaze j.pa).1) v
        (cal_inv_step v st j (by exact hall j (List.mem_cons_self j l)) hinv)
        (fun x hx => hall x (List.mem_cons_of_mem j hx)) k i hout hin

/-- A frame fails the calibration preconditions iff it has a non-single
face count, a non-CENTER gaze, or an active proctor alert. -/
theorem qualifies_false_iff (i : CIn) :
    qualifies i = false ↔ (i.fc ≠ 1 ∨ i.gaze ≠ "CENTER" ∨ i.pa = true) := by
  simp [qualifies]
  tauto

/-- **C7**: while unlocked, a calibration call whose preconditions fail
discards all accumulated samples and clears the start timestamp; and after
such a violating frame, no later frame of the run can report a lock until
at least the full 3.0 s calibration duration after the violation has
elapsed (a fresh uninterrupted qualifying streak is needed). -/
theorem calibration_reset_and_fresh_streak :
    (∀ (st : DetState) (lm : Lm) (t : ℚ) (fc : ℕ) (g : String) (pa : Bool),
       fc ≠ 1 ∨ g ≠ "CENTER" ∨ pa = true →
       initializeBaseline st lm t fc g pa =
         ({ st with baseline_init_samples := [],
                    baseline_init_start_time := none }, false))
    ∧
    (∀ (st : DetState) (iv : CIn) (l : List CIn) (k : ℕ) (i : CIn),
       qualifies iv = false →
       (∀ j ∈ l, iv.t ≤ j.t) →
       (calRunOuts st (iv :: l)).get? (k + 1) = some true →
       l.get? k = some i →
       iv.t + baseline_init_duration ≤ i.t) := by
  constructor
  · intro st lm t fc g pa h
    rw [initializeBaseline, if_pos]
    rcases h with h | h | h <;> simp [h]
  · intro st iv l k i hq hall hout hin
    simp only [calRunOuts] at hout
    rw [List.get?_cons_succ] at hout
    have hreset : (initializeBaseline st iv.lm iv.t iv.fc iv.gaze iv.pa).1.baseline_init_start_time
        = none := by
      have h := (qualifies_false_iff iv).mp hq
      rw [initializeBaseline, if_pos]
      rcases h with h | h | h <;> simp [h]
    exact cal_run_no_lock l
      ((initializeBaseline st iv.lm iv.t iv.fc iv.gaze iv.pa).1) iv.t
      (fun s hs => by rw [hreset] at hs; cases hs) hall k i hout hin

/-- Witness for C7: the violating frame resets the accumulator, and in the
run violation(0), qualify(0.5), qualify(1.5), qualify(3.5) the lock is
reported at 3.5 s — indeed at least 3.0 s after the violation. -/
theorem calibration_reset_and_fresh_streak_witness :
    initializeBaseline DetState.init lmW 0 2 "CENTER" false =
      ({ DetState.init with
          baseline_init_samples := [],
          baseline_init_start_time := none }, false) ∧
    (calRunOuts DetState.init [cViol, cIn (1/2), cIn (3/2), cIn (7/2)]).get? 3
      = some true ∧
    cViol.t + baseline_init_duration ≤ (cIn (7/2)).t := by
  have houts : (calRunOuts DetState.init
      [cViol, cIn (1/2), cIn (3/2), cIn (7/2)]).get? 3 = some true := by
    norm_num [calRunOuts, initializeBaseline, DetState.init, cViol, cIn,
      lmW_107, lmW_336, pdist, sqrtQ, natSqrt, natSqrtAux, Int.toNat_ofNat,
      baseline_init_duration]
  refine ⟨?_, houts, ?_⟩
  · exact calibration_reset_and_fresh_streak.1 DetState.init lmW 0 2 "CENTER"
      false (Or.inl (by norm_num))
  · refine calibration_reset_and_fresh_streak.2 DetState.init cViol
      [cIn (1/2), cIn (3/2), cIn (7/2)] 2 (cIn (7/2)) ?_ ?_ houts rfl
    · simp [qualifies, cViol]
    · intro j hj
      simp only [List.mem_cons, List.not_mem_nil, or_false] at hj
      rcases hj with hj | hj | hj <;> (rw [hj]; norm_num [cViol, cIn])

/-! ## C8 -/

theorem lm8_133 : getPoint lm8 LEFT_EYE_INNER = some (0, 0) := rfl
theorem lm8_33 : getPoint lm8 LEFT_EYE_OUTER = some (0, 0) := rfl
theorem lm8_362 : getPoint lm8 RIGHT_EYE_INNER = some (90, 0) := rfl
theorem lm8_263 : getPoint lm8 RIGHT_EYE_OUTER = some (100, 0) := rfl
theorem lm8_159 : getPoint lm8 LEFT_EYE_TOP = some (0, 1) := rfl
theorem lm8_145 : getPoint lm8 LEFT_EYE_BOTTOM = some (0, 2) := rfl
theorem lm8_386 : getPoint lm8 RIGHT_EYE_TOP = some (95, 1) := rfl
theorem lm8_374 : getPoint lm8 RIGHT_EYE_BOTTOM = some (95, 2) := rfl

/-- **C8 (counterexample)**: at `lm8` the left eye width is 0 and the right
eye width is 10, so per the claim the horizontal test is neither
conclusive nor "inconclusive" (which the claim reserves for both widths
degenerate or an in-band ratio), and the claim's "all other cases return
CENTER" clause would apply — but the code runs the vertical test whenever
the horizontal test did not return, and classifies UP. -/
theorem gaze_classifier_cex :
    calculateGazeDirection lm8 = some "UP" ∧
    |((0:ℚ)) - 0| = 0 ∧ (0:ℚ) < |(100:ℚ) - 90| ∧
    some "UP" ≠ some "CENTER" := by
  refine ⟨?_, by norm_num, by norm_num, by simp⟩
  norm_num [calculateGazeDirection, lm8_133, lm8_33, lm8_362, lm8_263,
    lm8_159, lm8_145, lm8_386, lm8_374]
  intro h
  simp [lm8] at h

/-- The vertical block of the classifier agrees with the claim's flattened
formulation. -/
theorem vertical_equiv (lh rh fw : ℚ) :
    (if lh > 0 ∧ rh > 0 then
       (if fw > 0 then
          (if ((if fw / 10 > 0 then lh / (fw / 10) else 1) +
               (if fw / 10 > 0 then rh / (fw / 10) else 1)) / 2 < 7/10 then
             some "UP"
           else if ((if fw / 10 > 0 then lh / (fw / 10) else 1) +
               (if fw / 10 > 0 then rh / (fw / 10) else 1)) / 2 > 13/10 then
             some "DOWN"
           else some "CENTER")
        else some "CENTER")
     else some "CENTER") =
    some (if lh > 0 ∧ rh > 0 ∧ fw > 0 ∧
            (lh / (fw / 10) + rh / (fw / 10)) / 2 < 7/10 then "UP"
          else if lh > 0 ∧ rh > 0 ∧ fw > 0 ∧
            (lh / (fw / 10) + rh / (fw / 10)) / 2 > 13/10 then "DOWN"
          else "CENTER") := by
  by_cases hh : lh > 0 ∧ rh > 0
  · by_cases hf : fw > 0
    · have hexp : fw / 10 > 0 := by linarith
      rw [if_pos hh, if_pos hf]
      simp only [if_pos hexp]
      by_cases hu : (lh / (fw / 10) + rh / (fw / 10)) / 2 < 7/10
      · rw [if_pos hu, if_pos ⟨hh.1, hh.2, hf, hu⟩]
      · rw [if_neg hu]
        by_cases hd : (lh / (fw / 10) + rh / (fw / 10)) / 2 > 13/10
        · rw [if_pos hd, if_neg (by tauto), if_pos ⟨hh.1, hh.2, hf, hd⟩]
        · rw [if_neg hd, if_neg (by tauto), if_neg (by tauto)]
    · rw [if_pos hh, if_neg hf, if_neg (by tauto), if_neg (by tauto)]
  · rw [if_neg hh, if_neg (by tauto), if_neg (by tauto)]

/-- **C8 (amended)**: with all eight eye landmarks present, the classifier
agrees everywhere with the amended claim's decision tree
`gazeSpecAmended`: LEFT/RIGHT require both widths positive and the ratio
outside the band; the vertical test runs whenever the horizontal test does
not return — including when exactly one eye width is degenerate — and
needs positive apertures and face width; everything else is CENTER. -/
theorem gaze_classifier_amended :
    ∀ (lm : Lm) (li lo ri ro lt lb rt rb : Pt),
      getPoint lm LEFT_EYE_INNER = some li →
      getPoint lm LEFT_EYE_OUTER = some lo →
      getPoint lm RIGHT_EYE_INNER = some ri →
      getPoint lm RIGHT_EYE_OUTER = some ro →
      getPoint lm LEFT_EYE_TOP = some lt →
      getPoint lm LEFT_EYE_BOTTOM = some lb →
      getPoint lm RIGHT_EYE_TOP = some rt →
      getPoint lm RIGHT_EYE_BOTTOM = some rb →
      calculateGazeDirection lm = some (gazeSpecAmended li lo ri ro lt lb rt rb) := by
  intro lm li lo ri ro lt lb rt rb h1 h2 h3 h4 h5 h6 h7 h8
  have hne : lm.isEmpty = false := by
    cases lm
    · simp [getPoint] at h1
    · rfl
  simp only [calculateGazeDirection, hne, Bool.false_eq_true, if_false,
    h1, h2, h3, h4, h5, h6, h7, h8, gazeSpecAmended]
  by_cases hw : |lo.1 - li.1| > 0 ∧ |ro.1 - ri.1| > 0
  · by_cases hL : ((li.1 - (li.1 + lo.1) / 2) / |lo.1 - li.1| +
        (ri.1 - (ri.1 + ro.1) / 2) / |ro.1 - ri.1|) / 2 < -(1/5)
    · simp only [if_pos hw, if_pos hL]
      rw [if_pos ⟨hw.1, hw.2, hL⟩]
    · by_cases hR : ((li.1 - (li.1 + lo.1) / 2) / |lo.1 - li.1| +
          (ri.1 - (ri.1 + ro.1) / 2) / |ro.1 - ri.1|) / 2 > 1/5
      · simp only [if_pos hw, if_neg hL, if_pos hR]
        have hnL : ¬(|lo.1 - li.1| > 0 ∧ |ro.1 - ri.1| > 0 ∧
            ((li.1 - (li.1 + lo.1) / 2) / |lo.1 - li.1| +
             (ri.1 - (ri.1 + ro.1) / 2) / |ro.1 - ri.1|) / 2 < -(1/5)) := by
          tauto
        rw [if_neg hnL, if_pos ⟨hw.1, hw.2, hR⟩]
      · simp only [if_pos hw, if_neg hL, if_neg hR]
        have hnL : ¬(|lo.1 - li.1| > 0 ∧ |ro.1 - ri.1| > 0 ∧
            ((li.1 - (li.1 + lo.1) / 2) / |lo.1 - li.1| +
             (ri.1 - (ri.1 + ro.1) / 2) / |ro.1 - ri.1|) / 2 < -(1/5)) := by
          tauto
        have hnR : ¬(|lo.1 - li.1| > 0 ∧ |ro.1 - ri.1| > 0 ∧
            ((li.1 - (li.1 + lo.1) / 2) / |lo.1 - li.1| +
             (ri.1 - (ri.1 + ro.1) / 2) / |ro.1 - ri.1|) / 2 > 1/5) := by
          tauto
        rw [vertical_equiv |lt.2 - lb.2| |rt.2 - rb.2| |ro.1 - lo.1|,
          if_neg hnL, if_neg hnR]
  · simp only [if_neg hw]
    have hnL : ¬(|lo.1 - li.1| > 0 ∧ |ro.1 - ri.1| > 0 ∧
        ((li.1 - (li.1 + lo.1) / 2) / |lo.1 - li.1| +
         (ri.1 - (ri.1 + ro.1) / 2) / |ro.1 - ri.1|) / 2 < -(1/5)) := by
      tauto
    have hnR : ¬(|lo.1 - li.1| > 0 ∧ |ro.1 - ri.1| > 0 ∧
        ((li.1 - (li.1 + lo.1) / 2) / |lo.1 - li.1| +
         (ri.1 - (ri.1 + ro.1) / 2) / |ro.1 - ri.1|) / 2 > 1/5) := by
      tauto
    rw [vertical_equiv |lt.2 - lb.2| |rt.2 - rb.2| |ro.1 - lo.1|,
      if_neg hnL, if_neg hnR]

/-- Witness for the amended C8: at the concrete landmarks `lm8` the
classifier and the amended decision tree agree (both give UP). -/
theorem gaze_classifier_amended_witness :
    calculateGazeDirection lm8 =
      some (gazeSpecAmended (0, 0) (0, 0) (90, 0) (100, 0)
        (0, 1) (0, 2) (95, 1) (95, 2)) :=
  gaze_classifier_amended lm8 (0, 0) (0, 0) (90, 0) (100, 0)
    (0, 1) (0, 2) (95, 1) (95, 2) rfl rfl rfl rfl rfl rfl rfl rfl

/-! ## C9 -/

/-- With the nose tip present, `detect_head_rigidity` advances the window
to exactly append-then-prune. -/
theorem detectHeadRigidity_hp (st : DetState) (lm : Lm) (t : ℚ) (nose : Pt)
    (h : getPoint lm NOSE_TIP = some nose) :
    (detectHeadRigidity st lm t).1.head_positions =
      pruneHead (st.head_positions ++ [(t, nose)]) t := by
  simp only [detectHeadRigidity, h]
  split <;> rfl

/-- `initialize_baseline` never touches the head-position window. -/
theorem initializeBaseline_hp (st : DetState) (lm : Lm) (t : ℚ) (fc : ℕ)
    (g : String) (pa : Bool) :
    (initializeBaseline st lm t fc g pa).1.head_positions = st.head_positions := by
  simp only [initializeBaseline]
  split
  · rfl
  · split
    · rfl
    · split
      · split
        · rfl
        · split <;> rfl
      · rfl

/-- **C9 (counterexample)**: the claim says every `detect_confusion` call
with landmarks present advances the head-position window.  But with the
baseline still unlocked after the calibration attempt (here: a two-face
frame), `detect_confusion` returns early: the nose tip is present yet the
window stays empty instead of advancing to `[(3, (5, 0))]`. -/
theorem head_window_not_advanced_cex :
    lmW.isEmpty = false ∧
    getPoint lmW NOSE_TIP = some (5, 0) ∧
    (detectConfusion DetState.init lmW 3 2 "CENTER" false).1.head_positions = [] ∧
    pruneHead (DetState.init.head_positions ++ [(3, (5, 0))]) 3 = [(3, (5, 0))] ∧
    ([] : List (ℚ × Pt)) ≠ [((3:ℚ), ((5:ℚ), (0:ℚ)))] := by
  refine ⟨rfl, lmW_4, ?_, ?_, by simp⟩
  · norm_num [detectConfusion, initializeBaseline, DetState.init]
  · norm_num [pruneHead, DetState.init, time_window_seconds, List.filter]

/-- **C9 (amended)**: the head-rigidity window maintenance (append the
nose-tip sample, prune to the trailing 3.0 s) runs on a confusion
evaluation only when the baseline is locked after the opportunistic
calibration attempt and the nose tip is present; while unlocked the call
returns early and the window does not advance; `initialize_baseline`
itself never touches the window, so the rigidity detector remains the only
place it advances. -/
theorem head_window_maintenance_amended :
    (∀ (st : DetState) (lm : Lm) (t : ℚ) (fc : ℕ) (g : String) (pa : Bool)
       (nose : Pt),
       lm.isEmpty = false →
       (if st.baseline_locked then st
        else (initializeBaseline st lm t fc g pa).1).baseline_locked = true →
       getPoint lm NOSE_TIP = some nose →
       (detectConfusion st lm t fc g pa).1.head_positions =
         pruneHead ((if st.baseline_locked then st
           else (initializeBaseline st lm t fc g pa).1).head_positions
             ++ [(t, nose)]) t)
    ∧
    (∀ (st : DetState) (lm : Lm) (t : ℚ) (nose : Pt),
       lm.isEmpty = false → st.baseline_locked = true →
       getPoint lm NOSE_TIP = some nose →
       (getConfusionReasons st lm t).1.head_positions =
         pruneHead (st.head_positions ++ [(t, nose)]) t)
    ∧
    (∀ (st : DetState) (lm : Lm) (t : ℚ) (fc : ℕ) (g : String) (pa : Bool),
       (initializeBaseline st lm t fc g pa).1.head_positions = st.head_positions)
    ∧
    (∀ (st : DetState) (lm : Lm) (t : ℚ) (fc : ℕ) (g : String) (pa : Bool),
       (if st.baseline_locked then st
        else (initializeBaseline st lm t fc g pa).1).baseline_locked = false →
       (detectConfusion st lm t fc g pa).1.head_positions = st.head_positions) := by
  refine ⟨?_, ?_, ?_, ?_⟩
  · intro st lm t fc g pa nose hlm h hn
    simp only [detectConfusion, hlm, Bool.false_eq_true, if_false, h,
      Bool.not_true]
    exact detectHeadRigidity_hp _ lm t nose hn
  · intro st lm t nose hlm hl hn
    simp only [getConfusionReasons, hlm, hl, Bool.not_true, Bool.or_false,
      Bool.false_eq_true, if_false]
    exact detectHeadRigidity_hp st lm t nose hn
  · intro st lm t fc g pa
    exact initializeBaseline_hp st lm t fc g pa
  · intro st lm t fc g pa h
    by_cases hlm : lm.isEmpty
    · simp [detectConfusion, hlm]
    · have hsl : st.baseline_locked = false := by
        by_contra hc
        rw [Bool.not_eq_false] at hc
        rw [if_pos hc] at h
        rw [hc] at h
        cases h
      rw [if_neg (by rw [hsl]; simp)] at h
      simp only [detectConfusion, hlm, Bool.false_eq_true, if_false, hsl, h,
        Bool.not_false, if_true]
      exact initializeBaseline_hp st lm t fc g pa

/-- Witness for the amended C9: at the locked witness state the window
advances on both evaluation paths; a calibration call never moves it; and
the unlocked two-face frame of the counterexample leaves it unchanged. -/
theorem head_window_maintenance_amended_witness :
    (detectConfusion stW lmW 0 1 "CENTER" false).1.head_positions =
      pruneHead ((if stW.baseline_locked then stW
        else (initializeBaseline stW lmW 0 1 "CENTER" false).1).head_positions
          ++ [(0, (5, 0))]) 0 ∧
    (getConfusionReasons stW lmW 0).1.head_positions =
      pruneHead (stW.head_positions ++ [(0, (5, 0))]) 0 ∧
    (initializeBaseline stW lmW 9 1 "CENTER" false).1.head_positions =
      stW.head_positions ∧
    (detectConfusion DetState.init lmW 3 2 "CENTER" false).1.head_positions =
      DetState.init.head_positions := by
  refine ⟨?_, ?_, ?_, ?_⟩
  · exact head_window_maintenance_amended.1 stW lmW 0 1 "CENTER" false (5, 0)
      rfl rfl lmW_4
  · exact head_window_maintenance_amended.2.1 stW lmW 0 (5, 0) rfl rfl lmW_4
  · exact head_window_maintenance_amended.2.2.1 stW lmW 9 1 "CENTER" false
  · refine head_window_maintenance_amended.2.2.2 DetState.init lmW 3 2
      "CENTER" false ?_
    norm_num [initializeBaseline, DetState.init]

/-! ## C10 -/

/-- `detect_confusion` on an empty/missing landmark mapping is a complete
no-op returning `false`. -/
theorem detectConfusion_empty (st : DetState) (t : ℚ) (fc : ℕ) (g : String)
    (pa : Bool) : detectConfusion st [] t fc g pa = (st, false) := by
  simp [detectConfusion]

/-- A run of landmark-less frames leaves the whole detector state
unchanged. -/
theorem dcRun_empty :
    ∀ (l : List CIn) (st : DetState), (∀ i ∈ l, i.lm = []) → dcRun st l = st := by
  intro l
  induction l with
  | nil => intro st _; rfl
  | cons i l ih =>
    intro st hall
    have hi : i.lm = [] := hall i (List.mem_cons_self i l)
    rw [dcRun, List.foldl_cons, hi, detectConfusion_empty]
    exact ih st fun j hj => hall j (List.mem_cons_of_mem i hj)

/-- **C10**: a `detect_confusion` call with an empty or missing landmark
mapping returns `false` and leaves every piece of detector state unchanged
(baseline value and flag, sample accumulator, start timestamp, head
window); hence a run of landmark-less frames does not reset an in-progress
calibration streak, and the retained start timestamp — from which elapsed
calibration time is measured — survives the whole run. -/
theorem empty_landmarks_noop :
    (∀ (st : DetState) (t : ℚ) (fc : ℕ) (g : String) (pa : Bool),
       detectConfusion st [] t fc g pa = (st, false))
    ∧
    (∀ (st : DetState) (l : List CIn), (∀ i ∈ l, i.lm = []) →
       dcRun st l = st)
    ∧
    (∀ (st : DetState) (l : List CIn) (s : ℚ), (∀ i ∈ l, i.lm = []) →
       st.baseline_init_start_time = some s →
       (dcRun st l).baseline_init_start_time = some s) := by
  refine ⟨detectConfusion_empty, fun st l h => dcRun_empty l st h, ?_⟩
  intro st l s hall hst
  rw [dcRun_empty l st hall]
  exact hst

/-- Witness for C10: two landmark-less frames (one of them even violating
every calibration precondition) leave the mid-calibration state `stL`
untouched, its start timestamp included. -/
theorem empty_landmarks_noop_witness :
    detectConfusion stL [] 1 1 "CENTER" false = (stL, false) ∧
    dcRun stL [⟨[], 1, 1, "CENTER", false⟩, ⟨[], 2, 2, "LEFT", true⟩] = stL ∧
    (dcRun stL [⟨[], 1, 1, "CENTER", false⟩, ⟨[], 2, 2, "LEFT", true⟩]).baseline_init_start_time
      = some 0 := by
  refine ⟨empty_landmarks_noop.1 stL 1 1 "CENTER" false,
    empty_landmarks_noop.2.1 stL _ ?_,
    empty_landmarks_noop.2.2 stL _ 0 ?_ rfl⟩
  · intro i hi
    rcases List.mem_cons.mp hi with h | h
    · rw [h]
    · rw [List.mem_singleton.mp h]
  · intro i hi
    rcases List.mem_cons.mp hi with h | h
    · rw [h]
    · rw [List.mem_singleton.mp h]

end SmartSession
